import Mathlib

/-!
Verification development for the beatmap chart parser (`app/utils/osu_parser.py`)
and the archive processor (`app/utils/osz_processor.py`).

The Python code is shallowly embedded: strings are processed as `List Char`
(Python `str.split(sep)` for a one-character separator, `str.strip()`,
`str.startswith`, `str.endswith`, slicing, `",".join`, `str.lower`,
`str.replace`), Python `int` is `Int`, Python `float` is modelled as `ℚ`,
Python lists are `List`, and every `try/except`-guarded conversion is an
`Option`-valued parse whose `none` branch reproduces the `except` path.
Functions that raise `ValueError` to the caller are `Except`-valued.
-/

/-- Model of Python `str.split(c)` for a single-character separator `c`:
always returns at least one piece, splitting at every occurrence of `c`. -/
def pysplit (c : Char) : List Char → List (List Char)
  | [] => [[]]
  | x :: xs =>
    match pysplit c xs with
    | [] => [[]]
    | h :: t => if x = c then [] :: h :: t else (x :: h) :: t

/-- Model of Python `str.strip()`: removes whitespace from both ends. -/
def pytrim (l : List Char) : List Char :=
  ((l.dropWhile Char.isWhitespace).reverse.dropWhile Char.isWhitespace).reverse

/-- Model of Python `str.strip(c)` for a single character: removes every
leading and trailing occurrence of `c`. -/
def pystripChar (c : Char) (l : List Char) : List Char :=
  ((l.dropWhile (· = c)).reverse.dropWhile (· = c)).reverse

/-- Model of Python `str.startswith(pre)`. -/
def pyStartsWith (l pre : List Char) : Bool :=
  pre.isPrefixOf l

/-- Model of Python `str.endswith(suf)`. -/
def pyEndsWith (l suf : List Char) : Bool :=
  suf.isSuffixOf l

/-- Model of Python `sep.join(parts)` for the one-character separator `sep`. -/
def pyjoin (sep : Char) (parts : List (List Char)) : List Char :=
  List.intercalate [sep] parts

/-- Model of Python `str.lower()` (ASCII case folding suffices here). -/
def pylower (l : List Char) : List Char :=
  l.map Char.toLower

/-- Numeric value of a digit string. -/
def digitsVal (l : List Char) : Nat :=
  l.foldl (fun a c => 10 * a + (c.toNat - 48)) 0

/-- Value of a nonempty all-digit string, `none` otherwise. -/
def pyDigits? (l : List Char) : Option Nat :=
  if l ≠ [] ∧ l.all Char.isDigit then some (digitsVal l) else none

/-- Model of Python `int(s)` on a string: optional surrounding whitespace,
optional sign, then decimal digits; every other input raises `ValueError`,
modelled as `none`. -/
def pyInt? (l : List Char) : Option Int :=
  match pytrim l with
  | '-' :: r => (pyDigits? r).map (fun n => -(n : Int))
  | '+' :: r => (pyDigits? r).map (fun n => (n : Int))
  | t => (pyDigits? t).map (fun n => (n : Int))

/-- Unsigned decimal-notation part of the `float(s)` model: either plain
digits or `digits.digits` with at least one digit present. -/
def pyUFloat? (l : List Char) : Option ℚ :=
  match pysplit '.' l with
  | [a] => (pyDigits? a).map (fun n => (n : ℚ))
  | [a, b] =>
    if (a ≠ [] ∨ b ≠ []) ∧ a.all Char.isDigit ∧ b.all Char.isDigit then
      some ((digitsVal a : ℚ) + (digitsVal b : ℚ) / ((10 : ℚ) ^ b.length))
    else none
  | _ => none

/-- Model of Python `float(s)` on ordinary decimal notation (the chart format
uses only this subset); failures are `none`. -/
def pyFloat? (l : List Char) : Option ℚ :=
  match pytrim l with
  | '-' :: r => (pyUFloat? r).map Neg.neg
  | '+' :: r => pyUFloat? r
  | t => pyUFloat? t

/-- Model of Python `int(x)` applied to a float: truncation toward zero. -/
def pyTrunc (q : ℚ) : Int :=
  if 0 ≤ q.num then q.num / (q.den : Int) else -((-q.num) / (q.den : Int))

/-- Python `str.strip()` lifted to `String` values. -/
def trimStr (s : String) : String :=
  ⟨pytrim s.data⟩

/-- Python `str.lower()` lifted to `String` values. -/
def lowerStr (s : String) : String :=
  ⟨pylower s.data⟩

/-- The rational 0.7 (default `StackLeniency`). -/
def ratPoint7 : ℚ := ⟨7, 10, by norm_num, by norm_num⟩

/-- The rational 1.4 (default `SliderMultiplier`). -/
def rat1Point4 : ℚ := ⟨7, 5, by norm_num, by norm_num⟩

/-- Timing point record (`TimingPoint` dataclass in `osu_parser.py`). -/
structure TimingPoint where
  time : Int
  beat_length : ℚ
  meter : Int
  sample_set : Int
  sample_index : Int
  volume : Int
  uninherited : Bool
  effects : Int
deriving DecidableEq, Repr

/-- Hit object record (`HitObject` dataclass in `osu_parser.py`). -/
structure HitObject where
  x : Int
  y : Int
  time : Int
  type : Int
  hit_sound : Int
  object_params : String := ""
  hit_sample : String := ""
deriving DecidableEq, Repr

/-- Parsed chart record (`OsuMapData` dataclass in `osu_parser.py`), with the
source file's field defaults. -/
structure OsuMapData where
  osu_file_format : Int := 14
  filename : String := ""
  md5 : String := ""
  audio_filename : String := ""
  audio_lead_in : Int := 0
  audio_hash : String := ""
  preview_time : Int := -1
  countdown : Int := 1
  sample_set : String := "Normal"
  stack_leniency : ℚ := ratPoint7
  mode : Int := 0
  letterbox_in_breaks : Bool := false
  story_fire_in_front : Bool := true
  use_skin_sprites : Bool := false
  always_show_playfield : Bool := false
  overlay_position : String := "NoChange"
  skin_preference : String := ""
  epilepsy_warning : Bool := false
  countdown_offset : Int := 0
  special_style : Bool := false
  widescreen_storyboard : Bool := false
  samples_match_playback_rate : Bool := false
  bookmarks : List Int := []
  distance_spacing : ℚ := 1
  beat_divisor : Int := 4
  grid_size : Int := 4
  timeline_zoom : ℚ := 1
  title : String := ""
  title_unicode : String := ""
  artist : String := ""
  artist_unicode : String := ""
  creator : String := ""
  version : String := ""
  source : String := ""
  tags : String := ""
  beatmap_id : Int := 0
  beatmapset_id : Int := 0
  hp_drain_rate : ℚ := 5
  circle_size : ℚ := 5
  overall_difficulty : ℚ := 5
  approach_rate : ℚ := 5
  slider_multiplier : ℚ := rat1Point4
  slider_tick_rate : ℚ := 1
  background_filename : String := ""
  break_periods : List (Int × Int) := []
  timing_points : List TimingPoint := []
  combo_colours : List (Int × Int × Int) := []
  hit_objects : List HitObject := []
  total_length : Int := 0
  hit_length : Int := 0
  max_combo : Nat := 0
  bpm : ℚ := 0
deriving DecidableEq

/-- Parser state (`OsuFileParser`): the current section name plus the record
being built; `reset` returns it to this initial value. -/
structure ParserState where
  current_section : String := ""
  data : OsuMapData := {}
deriving DecidableEq

/-- Model of `OsuFileParser._parse_key_value`: split on the first colon, trim
both sides; a line without a colon yields `("", "")`. -/
def parse_key_value (line : List Char) : List Char × List Char :=
  match pysplit ':' line with
  | k :: r :: rest => (pytrim k, pytrim (pyjoin ':' (r :: rest)))
  | _ => ([], [])

/-- Model of `OsuFileParser._parse_general`: recognised `Key: Value` pairs
update their field; a failed numeric conversion leaves the record unchanged
(the `except (ValueError, TypeError): pass` path). -/
def parse_general (d : OsuMapData) (line : List Char) : OsuMapData :=
  let kv := parse_key_value line
  let key := kv.1
  let value := kv.2
  if key = [] then d
  else if key = "AudioFilename".data then { d with audio_filename := ⟨value⟩ }
  else if key = "AudioLeadIn".data then
    match pyInt? value with
    | some n => { d with audio_lead_in := n }
    | none => d
  else if key = "AudioHash".data then { d with audio_hash := ⟨value⟩ }
  else if key = "PreviewTime".data then
    match pyInt? value with
    | some n => { d with preview_time := n }
    | none => d
  else if key = "Countdown".data then
    match pyInt? value with
    | some n => { d with countdown := n }
    | none => d
  else if key = "SampleSet".data then { d with sample_set := ⟨value⟩ }
  else if key = "StackLeniency".data then
    match pyFloat? value with
    | some q => { d with stack_leniency := q }
    | none => d
  else if key = "Mode".data then
    match pyInt? value with
    | some n => { d with mode := n }
    | none => d
  else if key = "LetterboxInBreaks".data then
    { d with letterbox_in_breaks := value = "1".data }
  else if key = "StoryFireInFront".data then
    { d with story_fire_in_front := value = "1".data }
  else if key = "UseSkinSprites".data then
    { d with use_skin_sprites := value = "1".data }
  else if key = "AlwaysShowPlayfield".data then
    { d with always_show_playfield := value = "1".data }
  else if key = "OverlayPosition".data then { d with overlay_position := ⟨value⟩ }
  else if key = "SkinPreference".data then { d with skin_preference := ⟨value⟩ }
  else if key = "EpilepsyWarning".data then
    { d with epilepsy_warning := value = "1".data }
  else if key = "CountdownOffset".data then
    match pyInt? value with
    | some n => { d with countdown_offset := n }
    | none => d
  else if key = "SpecialStyle".data then
    { d with special_style := value = "1".data }
  else if key = "WidescreenStoryboard".data then
    { d with widescreen_storyboard := value = "1".data }
  else if key = "SamplesMatchPlaybackRate".data then
    { d with samples_match_playback_rate := value = "1".data }
  else d

/-- All-or-nothing integer parse of a comma-separated list (the Python list
comprehension `[int(x.strip()) for x in value.split(",")]`). -/
def pyIntList? (value : List Char) : Option (List Int) :=
  (pysplit ',' value).mapM (fun x => pyInt? (pytrim x))

/-- Model of `OsuFileParser._parse_editor`. -/
def parse_editor (d : OsuMapData) (line : List Char) : OsuMapData :=
  let kv := parse_key_value line
  let key := kv.1
  let value := kv.2
  if key = [] then d
  else if key = "Bookmarks".data then
    if value ≠ [] then
      match pyIntList? value with
      | some l => { d with bookmarks := l }
      | none => d
    else d
  else if key = "DistanceSpacing".data then
    match pyFloat? value with
    | some q => { d with distance_spacing := q }
    | none => d
  else if key = "BeatDivisor".data then
    match pyInt? value with
    | some n => { d with beat_divisor := n }
    | none => d
  else if key = "GridSize".data then
    match pyInt? value with
    | some n => { d with grid_size := n }
    | none => d
  else if key = "TimelineZoom".data then
    match pyFloat? value with
    | some q => { d with timeline_zoom := q }
    | none => d
  else d

/-- Model of `OsuFileParser._parse_metadata`. -/
def parse_metadata (d : OsuMapData) (line : List Char) : OsuMapData :=
  let kv := parse_key_value line
  let key := kv.1
  let value := kv.2
  if key = [] then d
  else if key = "Title".data then { d with title := ⟨value⟩ }
  else if key = "TitleUnicode".data then { d with title_unicode := ⟨value⟩ }
  else if key = "Artist".data then { d with artist := ⟨value⟩ }
  else if key = "ArtistUnicode".data then { d with artist_unicode := ⟨value⟩ }
  else if key = "Creator".data then { d with creator := ⟨value⟩ }
  else if key = "Version".data then { d with version := ⟨value⟩ }
  else if key = "Source".data then { d with source := ⟨value⟩ }
  else if key = "Tags".data then { d with tags := ⟨value⟩ }
  else if key = "BeatmapID".data then
    match pyInt? value with
    | some n => { d with beatmap_id := n }
    | none => d
  else if key = "BeatmapSetID".data then
    match pyInt? value with
    | some n => { d with beatmapset_id := n }
    | none => d
  else d

/-- Model of `OsuFileParser._parse_difficulty`. -/
def parse_difficulty (d : OsuMapData) (line : List Char) : OsuMapData :=
  let kv := parse_key_value line
  let key := kv.1
  let value := kv.2
  if key = [] then d
  else if key = "HPDrainRate".data then
    match pyFloat? value with
    | some q => { d with hp_drain_rate := q }
    | none => d
  else if key = "CircleSize".data then
    match pyFloat? value with
    | some q => { d with circle_size := q }
    | none => d
  else if key = "OverallDifficulty".data then
    match pyFloat? value with
    | some q => { d with overall_difficulty := q }
    | none => d
  else if key = "ApproachRate".data then
    match pyFloat? value with
    | some q => { d with approach_rate := q }
    | none => d
  else if key = "SliderMultiplier".data then
    match pyFloat? value with
    | some q => { d with slider_multiplier := q }
    | none => d
  else if key = "SliderTickRate".data then
    match pyFloat? value with
    | some q => { d with slider_tick_rate := q }
    | none => d
  else d

/-- Model of `OsuFileParser._parse_events`: lines starting `0,0,` set the
background filename (third field, double quotes stripped); lines starting `2,`
append an integer break period; everything else is ignored. -/
def parse_events (d : OsuMapData) (line : List Char) : OsuMapData :=
  if pyStartsWith line "0,0,".data then
    match pysplit ',' line with
    | _ :: _ :: p2 :: _ => { d with background_filename := ⟨pystripChar '"' p2⟩ }
    | _ => d
  else if pyStartsWith line "2,".data then
    match pysplit ',' line with
    | _ :: p1 :: p2 :: _ =>
      match pyInt? p1, pyInt? p2 with
      | some s, some e => { d with break_periods := d.break_periods ++ [(s, e)] }
      | _, _ => d
    | _ => d
  else d

/-- Model of `OsuFileParser._parse_timing_points`: fewer than 2 fields are
discarded; the offset is `int(float(...))`; fields 3-8 default to
`4, 0, 0, 100, true, 0`; a failed conversion anywhere drops the whole line. -/
def parse_timing_points (d : OsuMapData) (line : List Char) : OsuMapData :=
  let parts := pysplit ',' line
  if parts.length < 2 then d
  else
    match pyFloat? (parts.getD 0 []) with
    | none => d
    | some t0 =>
      match pyFloat? (parts.getD 1 []) with
      | none => d
      | some bl =>
        match (if 2 < parts.length then pyInt? (parts.getD 2 []) else some 4) with
        | none => d
        | some meter =>
          match (if 3 < parts.length then pyInt? (parts.getD 3 []) else some 0) with
          | none => d
          | some ss =>
            match (if 4 < parts.length then pyInt? (parts.getD 4 []) else some 0) with
            | none => d
            | some si =>
              match (if 5 < parts.length then pyInt? (parts.getD 5 []) else some 100) with
              | none => d
              | some vol =>
                let uninh : Bool := if 6 < parts.length then (parts.getD 6 [] = "1".data : Bool) else true
                match (if 7 < parts.length then pyInt? (parts.getD 7 []) else some 0) with
                | none => d
                | some eff =>
                  { d with timing_points := d.timing_points ++
                      [{ time := pyTrunc t0, beat_length := bl, meter := meter,
                         sample_set := ss, sample_index := si, volume := vol,
                         uninherited := uninh, effects := eff }] }

/-- Model of `OsuFileParser._parse_colours`: keys starting `Combo` whose value
is a nonempty list of exactly three integers append an RGB triple. -/
def parse_colours (d : OsuMapData) (line : List Char) : OsuMapData :=
  let kv := parse_key_value line
  let key := kv.1
  let value := kv.2
  if pyStartsWith key "Combo".data ∧ value ≠ [] then
    match pyIntList? value with
    | some [r, g, b] => { d with combo_colours := d.combo_colours ++ [(r, g, b)] }
    | _ => d
  else d

/-- Model of `OsuFileParser._parse_hit_objects`: fewer than 5 comma-separated
fields are discarded; otherwise x, y, time, type, hit_sound are parsed as
integers (any failure drops the line), the middle fields are rejoined into
`object_params` when more than 6 fields exist, and the last field becomes
`hit_sample` when more than 5 fields exist. -/
def parse_hit_objects (d : OsuMapData) (line : List Char) : OsuMapData :=
  let parts := pysplit ',' line
  if parts.length < 5 then d
  else
    match pyInt? (parts.getD 0 []) with
    | none => d
    | some x =>
      match pyInt? (parts.getD 1 []) with
      | none => d
      | some y =>
        match pyInt? (parts.getD 2 []) with
        | none => d
        | some t =>
          match pyInt? (parts.getD 3 []) with
          | none => d
          | some ty =>
            match pyInt? (parts.getD 4 []) with
            | none => d
            | some hs =>
              let object_params :=
                if 6 < parts.length then pyjoin ',' ((parts.drop 5).dropLast) else []
              let hit_sample := if 5 < parts.length then parts.getLastD [] else []
              { d with hit_objects := d.hit_objects ++
                  [{ x := x, y := y, time := t, type := ty, hit_sound := hs,
                     object_params := ⟨object_params⟩, hit_sample := ⟨hit_sample⟩ }] }

/-- Model of `OsuFileParser._parse_line`: skip blank and `//` lines, handle the
version marker, switch section on `[...]` headers, otherwise dispatch on the
current section name (exact, case-sensitive match; unknown sections discard). -/
def parse_line (st : ParserState) (line : List Char) : ParserState :=
  if line = [] ∨ pyStartsWith line "//".data then st
  else if pyStartsWith line "osu file format v".data then
    match (pysplit 'v' line).getD 1 [] with
    | s =>
      match pyInt? s with
      | some n => { st with data := { st.data with osu_file_format := n } }
      | none => st
  else if pyStartsWith line "[".data ∧ pyEndsWith line "]".data then
    { st with current_section := ⟨(line.drop 1).dropLast⟩ }
  else if st.current_section = "General" then
    { st with data := parse_general st.data line }
  else if st.current_section = "Editor" then
    { st with data := parse_editor st.data line }
  else if st.current_section = "Metadata" then
    { st with data := parse_metadata st.data line }
  else if st.current_section = "Difficulty" then
    { st with data := parse_difficulty st.data line }
  else if st.current_section = "Events" then
    { st with data := parse_events st.data line }
  else if st.current_section = "TimingPoints" then
    { st with data := parse_timing_points st.data line }
  else if st.current_section = "Colours" then
    { st with data := parse_colours st.data line }
  else if st.current_section = "HitObjects" then
    { st with data := parse_hit_objects st.data line }
  else st

/-- Predicate selecting the timing point the BPM computation uses: the first
uninherited point with positive beat length. -/
def bpmSource (tp : TimingPoint) : Bool :=
  tp.uninherited && decide (0 < tp.beat_length)

/-- Model of `OsuFileParser._calculate_derived_info`: a no-op when no hit
objects were parsed; otherwise fills `hit_length`, `total_length`, `max_combo`
and `bpm` exactly as the source does. -/
def calculate_derived_info (d : OsuMapData) : OsuMapData :=
  match d.hit_objects with
  | [] => d
  | o :: os =>
    let firstT := (os.map HitObject.time).foldl min o.time
    let lastT := (os.map HitObject.time).foldl max o.time
    { d with
      hit_length := lastT - firstT,
      total_length :=
        if 0 < d.preview_time then max (lastT + 2000) (d.preview_time + 30000)
        else lastT + 2000,
      max_combo := d.hit_objects.foldl
        (fun c ob =>
          if Int.land ob.type 1 ≠ 0 then c + 1
          else if Int.land ob.type 2 ≠ 0 then c + 1
          else if Int.land ob.type 8 ≠ 0 then c + 1
          else c) 0,
      bpm :=
        match d.timing_points.find? bpmSource with
        | some tp => 60000 / tp.beat_length
        | none => d.bpm }

/-- Model of `OsuFileParser.parse_content`: reset the parser state, split the
content on newlines, feed each stripped line to `parse_line` (the per-line
`try/except` in the source catches any error, and every line handler above is
total), then compute the derived fields once. The incoming state `st` models
`self`; `reset()` discards it. -/
def parse_content (_st : ParserState) (content : String) : OsuMapData :=
  let st0 : ParserState := {}
  let stF := (pysplit '\n' content.data).foldl (fun s l => parse_line s (pytrim l)) st0
  calculate_derived_info stF.data

/-- Model of the module-level convenience function `parse_osu_content`: a fresh
parser instance is created for each call. -/
def parse_osu_content (content : String) : OsuMapData :=
  parse_content {} content

/-- One file inside an `.osz` archive (`OszFileInfo` dataclass): path relative
to the extraction root (separators normalised), size, content hash, raw bytes
and the extension-derived role. -/
structure OszFileInfo where
  filename : String
  size : Nat
  md5_hash : String
  content : List Nat
  file_type : String
deriving DecidableEq

/-- Aggregate result of processing one archive (`OszMapset` dataclass). -/
structure OszMapset where
  title : String := ""
  artist : String := ""
  creator : String := ""
  source : String := ""
  tags : String := ""
  description : String := ""
  osz_filename : String := ""
  osz_hash : String := ""
  osz_size : Nat := 0
  beatmaps : List OsuMapData := []
  files : List OszFileInfo := []
deriving DecidableEq

/-- The ways a `process_osz_bytes` call can fail: the two deliberate
`ValueError`s (`"Invalid OSZ file: not a valid zip archive"` and
`"No valid beatmap files found in OSZ"`), and an exception the source does
not catch at all — its `try` block catches only `zipfile.BadZipFile`, so e.g.
a `RuntimeError` for an encrypted member or a `NotImplementedError` for an
unsupported compression method propagates to the caller. -/
inductive OszError where
  | invalidArchive
  | noValidCharts
  | uncaught (msg : String)
deriving DecidableEq, Repr

/-- One regular file of the extracted archive as the directory walk
(`extract_path.rglob("*")` filtered by `is_file()`) yields it: its path
relative to the extraction root, and its bytes (`none` when `read_bytes()`
fails). -/
structure ExtractedFile where
  path : String
  bytes? : Option (List Nat)
deriving DecidableEq

/-- Outcome of `zipfile.ZipFile(temp_osz, "r")` followed by
`extractall(extract_path)` and the directory walk, as a function of the
archive bytes: `badZipFile` when the container cannot be opened
(`zipfile.BadZipFile`), `extractFailure` when the container opens but
extraction raises some other exception (encrypted member → `RuntimeError`,
unsupported compression method → `NotImplementedError`), and `extracted`
with the regular files in walk order otherwise. -/
inductive ZipOpenResult where
  | badZipFile
  | extractFailure (msg : String)
  | extracted (files : List ExtractedFile)
deriving DecidableEq

/-- Model of `str(relative_path).replace("\\", "/")`. -/
def normalizeSep (p : String) : String :=
  ⟨p.data.map (fun c => if c = '\\' then '/' else c)⟩

/-- Position of the last `.` in a name, if any. -/
def lastDotPos (l : List Char) : Option Nat :=
  match l.reverse.findIdx? (· = '.') with
  | none => none
  | some j => some (l.length - 1 - j)

/-- Model of `pathlib.Path.suffix`: the extension (with dot) of the final path
component; empty when the only dot is leading or trailing. -/
def pathSuffix (p : String) : String :=
  let name := (pysplit '/' p.data).getLastD []
  match lastDotPos name with
  | some i => if 1 ≤ i ∧ i + 1 < name.length then ⟨name.drop i⟩ else ""
  | none => ""

/-- Model of `OszProcessor._get_file_type`: classification is by lower-cased
filename extension only. -/
def get_file_type (p : String) : String :=
  let ext := lowerStr (pathSuffix p)
  if ext = ".osu" then "osu"
  else if [".mp3", ".ogg", ".wav", ".m4a"].contains ext then "audio"
  else if [".jpg", ".jpeg", ".png", ".gif", ".bmp"].contains ext then "image"
  else if [".avi", ".flv", ".mpg", ".wmv", ".mp4", ".m4v"].contains ext then "video"
  else if [".osb", ".txt"].contains ext then "storyboard"
  else "other"

/-- Model of `OszProcessor._process_file`, parameterised by the hash function
(`hashlib.md5(...).hexdigest()`) and the byte decoder
(`bytes.decode("utf-8", errors="ignore")`, which never fails). An unreadable
file yields only a diagnostic; a chart file is additionally parsed and
appended to `beatmaps` with its path and hash filled in. -/
def process_file (md5 : List Nat → String) (dec : List Nat → String)
    (e : ExtractedFile) (m : OszMapset) : OszMapset × List String :=
  let filename := normalizeSep e.path
  match e.bytes? with
  | none => (m, ["Warning: Cannot read file " ++ filename])
  | some content =>
    let info : OszFileInfo :=
      { filename := filename, size := content.length, md5_hash := md5 content,
        content := content, file_type := get_file_type e.path }
    let m1 := { m with files := m.files ++ [info] }
    if get_file_type e.path = "osu" then
      let osu := parse_osu_content (dec content)
      let osu := { osu with filename := filename, md5 := md5 content }
      ({ m1 with beatmaps := m1.beatmaps ++ [osu] }, [])
    else (m1, [])

/-- The file-visiting loop of `OszProcessor._parse_extracted_files`, folded
over the regular files in the order the directory walk yields them. -/
def collect_files (md5 : List Nat → String) (dec : List Nat → String)
    (files : List ExtractedFile) : OszMapset × List String :=
  files.foldl
    (fun acc e =>
      let r := process_file md5 dec e acc.1
      (r.1, acc.2 ++ r.2))
    ({}, [])

/-- Mapset-level metadata fill from the first chart
(`_parse_extracted_files`, after the loop). -/
def fill_from_first (m : OszMapset) : OszMapset :=
  match m.beatmaps with
  | [] => m
  | first :: _ =>
    let m := if m.title = "" then
      { m with title := if first.title ≠ "" then first.title else first.title_unicode }
      else m
    let m := if m.artist = "" then
      { m with artist := if first.artist ≠ "" then first.artist else first.artist_unicode }
      else m
    let m := if m.creator = "" then { m with creator := first.creator } else m
    let m := if m.source = "" then { m with source := first.source } else m
    let m := if m.tags = "" then { m with tags := first.tags } else m
    m

/-- Model of `OszProcessor._parse_extracted_files`: visit every regular file,
fail with `noValidCharts` when no chart was produced, otherwise fill the
mapset metadata from the first chart. The returned string list holds the
diagnostics the source prints. -/
def parse_extracted_files (md5 : List Nat → String) (dec : List Nat → String)
    (files : List ExtractedFile) : Except OszError (OszMapset × List String) :=
  let r := collect_files md5 dec files
  if r.1.beatmaps = [] then Except.error OszError.noValidCharts
  else Except.ok (fill_from_first r.1, r.2)

/-- Model of `OszProcessor.process_osz_bytes`, parameterised by the zip
opener/extractor `unzip`. A `badZipFile` outcome is caught and re-raised as
the invalid-archive `ValueError`; an `extractFailure` outcome is an exception
the source's `except zipfile.BadZipFile` clause does not catch, so it escapes
to the caller unchanged, modelled by the `uncaught` error. -/
def process_osz_bytes (md5 : List Nat → String) (dec : List Nat → String)
    (unzip : List Nat → ZipOpenResult)
    (osz_data : List Nat) (original_filename : String) :
    Except OszError (OszMapset × List String) :=
  match unzip osz_data with
  | ZipOpenResult.badZipFile => Except.error OszError.invalidArchive
  | ZipOpenResult.extractFailure msg => Except.error (OszError.uncaught msg)
  | ZipOpenResult.extracted files =>
    match parse_extracted_files md5 dec files with
    | Except.error e => Except.error e
    | Except.ok (m, ds) =>
      Except.ok ({ m with osz_filename := original_filename,
                          osz_hash := md5 osz_data,
                          osz_size := osz_data.length }, ds)

/-- Duplicate-difficulty problem string
(`f"Duplicate difficulty version: {version} (mode {mode})"`). -/
def dupMsg (b : OsuMapData) : String :=
  "Duplicate difficulty version: " ++ b.version ++ " (mode " ++ toString b.mode ++ ")"

/-- No-hit-objects problem string. -/
def noHitObjectsMsg (b : OsuMapData) : String :=
  "No hit objects found in difficulty: " ++ b.version

/-- Missing-audio problem string. -/
def audioMissingMsg (b : OsuMapData) : String :=
  "Audio file not found: " ++ b.audio_filename

/-- Model of the per-chart audio lookup: a case-insensitive filename match
against the members classified as audio. -/
def audioFound (files : List OszFileInfo) (b : OsuMapData) : Bool :=
  files.any fun f =>
    (lowerStr f.filename = lowerStr b.audio_filename : Bool) && (f.file_type = "audio" : Bool)

/-- One step of the per-beatmap loop in `OszProcessor.validate_osz`: the
accumulator carries the error list and the `seen_versions` set (modelled as
the list of `(mode, version)` pairs added so far). -/
def validateChartStep (files : List OszFileInfo)
    (acc : List String × List (Int × String)) (b : OsuMapData) :
    List String × List (Int × String) :=
  let errs := acc.1
  let seen := acc.2
  let errs := if (b.mode, b.version) ∈ seen then errs ++ [dupMsg b] else errs
  let seen := seen ++ [(b.mode, b.version)]
  let errs := if trimStr b.version = "" then
    errs ++ ["Beatmap version/difficulty name is required"] else errs
  let errs := if trimStr b.creator = "" then
    errs ++ ["Beatmap creator is required"] else errs
  let errs := if b.hit_objects = [] then errs ++ [noHitObjectsMsg b] else errs
  let errs := if b.audio_filename ≠ "" ∧ audioFound files b = false then
    errs ++ [audioMissingMsg b] else errs
  (errs, seen)

/-- Model of `OszProcessor.validate_osz`: accumulate problem strings, with the
single early return when no beatmap is present. -/
def validate_osz (m : OszMapset) : List String :=
  let errors : List String := []
  let errors := if trimStr m.title = "" then errors ++ ["Mapset title is required"] else errors
  let errors := if trimStr m.artist = "" then errors ++ ["Artist name is required"] else errors
  let errors := if trimStr m.creator = "" then errors ++ ["Creator name is required"] else errors
  if m.beatmaps = [] then errors ++ ["At least one beatmap is required"]
  else
    let p := m.beatmaps.foldl (validateChartStep m.files) (errors, [])
    let errors := p.1
    if m.files.filter (fun f => f.file_type == "audio") = [] then
      errors ++ ["At least one audio file is required"]
    else errors

/-- Specification-shaped restatement of the basic-metadata checks: each check
contributes its problem independently of the others. -/
def baseProblems (m : OszMapset) : List String :=
  (if trimStr m.title = "" then ["Mapset title is required"] else []) ++
  (if trimStr m.artist = "" then ["Artist name is required"] else []) ++
  (if trimStr m.creator = "" then ["Creator name is required"] else [])

/-- Specification-shaped restatement of the per-chart checks for one chart,
given the `(mode, version)` pairs of the charts before it. -/
def perChartProblems (files : List OszFileInfo) (seen : List (Int × String))
    (b : OsuMapData) : List String :=
  (if (b.mode, b.version) ∈ seen then [dupMsg b] else []) ++
  (if trimStr b.version = "" then ["Beatmap version/difficulty name is required"] else []) ++
  (if trimStr b.creator = "" then ["Beatmap creator is required"] else []) ++
  (if b.hit_objects = [] then [noHitObjectsMsg b] else []) ++
  (if b.audio_filename ≠ "" ∧ audioFound files b = false then [audioMissingMsg b] else [])

/-- Specification-shaped restatement of the whole per-chart loop: every chart
contributes all of its problems, in order. -/
def chartProblems (files : List OszFileInfo) (seen : List (Int × String)) :
    List OsuMapData → List String
  | [] => []
  | b :: bs =>
    perChartProblems files seen b ++
      chartProblems files (seen ++ [(b.mode, b.version)]) bs

/-- Specification-shaped restatement of the mapset-level audio check. -/
def audioProblems (m : OszMapset) : List String :=
  if m.files.filter (fun f => f.file_type == "audio") = [] then
    ["At least one audio file is required"]
  else []

/-- Specification-shaped restatement of the whole validation: the basic checks
always run; with zero charts the no-chart problem ends the list (the single
short-circuit); otherwise every per-chart problem and the audio-presence
problem are all accumulated. -/
def validateSpec (m : OszMapset) : List String :=
  baseProblems m ++
    (if m.beatmaps = [] then ["At least one beatmap is required"]
     else chartProblems m.files [] m.beatmaps ++ audioProblems m)

/-- Hit object used by concrete check inputs. -/
def hobj (t ty : Int) : HitObject :=
  { x := 0, y := 0, time := t, type := ty, hit_sound := 0 }

/-- The timing point parsed from the line `0,500`. -/
def tpFiveHundred : TimingPoint :=
  { time := 0, beat_length := 500, meter := 4, sample_set := 0,
    sample_index := 0, volume := 100, uninherited := true, effects := 0 }

/-- An archive member that will produce a chart: readable and classified
`osu` by extension. -/
def isChartEntry (e : ExtractedFile) : Bool :=
  e.bytes?.isSome && (get_file_type e.path == "osu")

/-- An archive member whose bytes can be read. -/
def isReadable (e : ExtractedFile) : Bool :=
  e.bytes?.isSome

/-- Concrete hash stand-in for the order counterexample. -/
def exMd5 : List Nat → String := fun _ => "h"

/-- Concrete decoder stand-in for the order counterexample. -/
def exDec : List Nat → String := fun _ => ""

/-- A zip opener modelling a well-formed container whose extraction raises:
`ZipFile` succeeds (the bytes do open as a zip), but `extractall` hits an
encrypted member and raises `RuntimeError`, which the source does not catch. -/
def encUnzip : List Nat → ZipOpenResult :=
  fun _ => ZipOpenResult.extractFailure
    "File a.osu is encrypted, password required for extraction"

/-- C1: the chart parser's parse operation is a total function of the input
text (every `try/except`-guarded conversion above is `Option`-valued and the
per-line dispatch is total, so `parse_content` returns an `OsuMapData` for
every input and no exception escapes), and a `HitObjects`-section line with
fewer than 5 comma-separated fields is dropped: `parse_hit_objects` leaves the
record unchanged, appending no hit object. -/
theorem c1_short_hitobject_line_dropped (d : OsuMapData) (line : List Char)
    (h : (pysplit ',' line).length < 5) : parse_hit_objects d line = d := by
  unfold parse_hit_objects
  simp only [if_pos h]

/-- C1 witness: the three-field line `1,2,3` is dropped by the hit-object
handler. -/
theorem c1_short_hitobject_line_dropped_witness :
    (pysplit ',' "1,2,3".data).length < 5 ∧
      parse_hit_objects {} "1,2,3".data = {} :=
  ⟨by decide, c1_short_hitobject_line_dropped {} "1,2,3".data (by decide)⟩

/-- C8: the chart parser is deterministic — `parse_content` resets the parser
state before reading, so its result does not depend on the incoming parser
state at all, and two independent invocations on the same content (as in
`parse_osu_content`, which builds a fresh parser) yield structurally equal
records. -/
theorem c8_parse_deterministic (s₁ s₂ : ParserState) (content : String) :
    parse_content s₁ content = parse_content s₂ content :=
  rfl

/-- C7: a `TimingPoints` line with exactly two comma-separated fields, both
parsing as floats, yields a timing point whose offset is the first field
parsed as float and truncated to an integer, whose beat length is the second
field, and whose remaining fields are the documented defaults
`meter=4, sample_set=0, sample_index=0, volume=100, uninherited=true,
effects=0`; and a line with fewer than two fields produces no timing point. -/
theorem c7_two_field_timing_point :
    (∀ (d : OsuMapData) (line f₁ f₂ : List Char) (q b : ℚ),
      pysplit ',' line = [f₁, f₂] → pyFloat? f₁ = some q → pyFloat? f₂ = some b →
      parse_timing_points d line =
        { d with timing_points := d.timing_points ++
            [{ time := pyTrunc q, beat_length := b, meter := 4, sample_set := 0,
               sample_index := 0, volume := 100, uninherited := true,
               effects := 0 }] }) ∧
    (∀ (d : OsuMapData) (line : List Char),
      (pysplit ',' line).length < 2 → parse_timing_points d line = d) := by
  constructor
  · intro d line f₁ f₂ q b hs hq hb
    unfold parse_timing_points
    simp [hs, hq, hb]
  · intro d line h
    unfold parse_timing_points
    simp only [if_pos h]

/-- C7 witness: the line `1000,500` appends exactly the defaulted timing
point with offset `1000` and beat length `500`, and the one-field line `1000`
is dropped. -/
theorem c7_two_field_timing_point_witness :
    pysplit ',' "1000,500".data = ["1000".data, "500".data] ∧
    pyFloat? "1000".data = some 1000 ∧ pyFloat? "500".data = some 500 ∧
    (parse_timing_points {} "1000,500".data).timing_points =
      [{ time := 1000, beat_length := 500, meter := 4, sample_set := 0,
         sample_index := 0, volume := 100, uninherited := true, effects := 0 }] ∧
    (pysplit ',' "1000".data).length < 2 ∧
    parse_timing_points {} "1000".data = {} := by
  refine ⟨by decide, by decide, by decide, ?_, by decide, ?_⟩
  · rw [c7_two_field_timing_point.1 {} "1000,500".data "1000".data "500".data
      1000 500 (by decide) (by decide) (by decide)]
    decide
  · exact c7_two_field_timing_point.2 {} "1000".data (by decide)

/-- C10 (amended): section header matching is exact and case-sensitive. Any
bracketed line `[...]` switches the current section to the bracket's contents
verbatim (no case folding); when the current section is not one of the eight
exact names `General`, `Editor`, `Metadata`, `Difficulty`, `Events`,
`TimingPoints`, `Colours`, `HitObjects`, every line other than a further
header and a version-marker line is silently discarded (the state is
unchanged); and a line beginning `osu file format v` is handled as the
version marker in *any* state — the version check precedes section dispatch,
so such a line sets `osu_file_format` instead of being discarded. -/
theorem c10_section_matching_exact :
    (∀ (st : ParserState) (line : List Char),
      pyStartsWith line "[".data = true → pyEndsWith line "]".data = true →
      parse_line st line = { st with current_section := ⟨(line.drop 1).dropLast⟩ }) ∧
    (∀ (st : ParserState) (line : List Char),
      st.current_section ∉ (["General", "Editor", "Metadata", "Difficulty",
        "Events", "TimingPoints", "Colours", "HitObjects"] : List String) →
      pyStartsWith line "osu file format v".data = false →
      ¬ (pyStartsWith line "[".data = true ∧ pyEndsWith line "]".data = true) →
      parse_line st line = st) ∧
    (∀ (st : ParserState) (line : List Char) (n : Int),
      pyStartsWith line "osu file format v".data = true →
      pyInt? ((pysplit 'v' line).getD 1 []) = some n →
      parse_line st line =
        { st with data := { st.data with osu_file_format := n } }) := by
  refine ⟨?_, ?_, ?_⟩
  · intro st line h1 h2
    have hpre : ("[".data).IsPrefix line := by
      simpa [pyStartsWith, List.isPrefixOf_iff_prefix] using h1
    obtain ⟨t, ht⟩ := hpre
    subst ht
    have hne : ¬(("[".data ++ t) = [] ∨ pyStartsWith ("[".data ++ t) "//".data = true) := by
      simp [pyStartsWith, List.isPrefixOf]
    have hver : ¬ (pyStartsWith ("[".data ++ t) "osu file format v".data = true) := by
      simp [pyStartsWith, List.isPrefixOf]
    have hc : pyStartsWith ("[".data ++ t) "[".data = true ∧
        pyEndsWith ("[".data ++ t) "]".data = true :=
      ⟨by simp [pyStartsWith, List.isPrefixOf], h2⟩
    unfold parse_line
    rw [if_neg hne, if_neg hver, if_pos hc]
  · intro st line h1 h2 h3
    simp only [List.mem_cons, List.mem_singleton, not_or] at h1
    unfold parse_line
    by_cases h0 : line = [] ∨ pyStartsWith line "//".data
    · simp [h0]
    · simp only [if_neg h0, h2, Bool.false_eq_true, if_false]
      rw [if_neg h3]
      simp [h1]
  · intro st line n h1 h2
    have hpre : ("osu file format v".data).IsPrefix line := by
      simpa [pyStartsWith, List.isPrefixOf_iff_prefix] using h1
    obtain ⟨t, ht⟩ := hpre
    subst ht
    have hne : ¬(("osu file format v".data ++ t) = [] ∨
        pyStartsWith ("osu file format v".data ++ t) "//".data = true) := by
      simp [pyStartsWith, List.isPrefixOf]
    have hv : pyStartsWith ("osu file format v".data ++ t)
        "osu file format v".data = true := by
      simp [pyStartsWith, List.isPrefixOf]
    unfold parse_line
    rw [if_neg hne, if_pos hv]
    dsimp only
    rw [h2]

/-- C10 counterexample to the claim as stated: in the unrecognised section
`general` the line `osu file format v7` is *not* silently discarded — the
parser state changes, because the version marker is processed before the
section dispatch. -/
theorem c10_unknown_section_counterexample :
    parse_line { current_section := "general" } "osu file format v7".data =
      { current_section := "general", data := { osu_file_format := 7 } } ∧
    ({ current_section := "general", data := { osu_file_format := 7 } } : ParserState) ≠
      { current_section := "general" } := by
  exact ⟨by decide, by decide⟩

/-- C10 witness: `[general]` (lower case) switches to the section named
`general`, which matches no handler, so a following `AudioFilename` line is
discarded without touching the state, while a version-marker line in that
same state still sets `osu_file_format`. -/
theorem c10_section_matching_exact_witness :
    (parse_line {} "[general]".data).current_section = "general" ∧
    parse_line { current_section := "general" } "AudioFilename: a.mp3".data =
      { current_section := "general" } ∧
    (parse_line { current_section := "general" } "osu file format v7".data).data.osu_file_format = 7 := by
  refine ⟨?_, ?_, ?_⟩
  · rw [c10_section_matching_exact.1 {} "[general]".data (by decide) (by decide)]
    decide
  · exact c10_section_matching_exact.2.1 { current_section := "general" }
      "AudioFilename: a.mp3".data (by decide) (by decide) (by decide)
  · rw [c10_section_matching_exact.2.2 { current_section := "general" }
      "osu file format v7".data 7 (by decide) (by decide)]

/-- A natural number is zero exactly when all of its bits are clear. -/
lemma nat_eq_zero_iff_testBit (x : Nat) : x = 0 ↔ ∀ i, x.testBit i = false := by
  constructor
  · rintro rfl i
    exact Nat.zero_testBit i
  · intro h
    exact Nat.eq_of_testBit_eq fun i => by rw [h i, Nat.zero_testBit]

/-- The bits of 11 are exactly bits 0, 1 and 3. -/
lemma testBit_eleven (i : Nat) :
    Nat.testBit 11 i = (decide (i = 0) || decide (i = 1) || decide (i = 3)) := by
  match i with
  | 0 => decide
  | 1 => decide
  | 2 => decide
  | 3 => decide
  | (n + 4) =>
    have h11 : (11 : Nat) < 2 ^ (n + 4) :=
      lt_of_lt_of_le (by norm_num)
        (le_trans (by norm_num : (2:Nat)^4 ≤ 2^4) (Nat.pow_le_pow_right (by norm_num) (by omega)))
    have h0 : (n + 4 ≠ 0) := by omega
    have h1 : (n + 4 ≠ 1) := by omega
    have h3 : (n + 4 ≠ 3) := by omega
    simp [Nat.testBit_lt_two_pow h11, h0, h1, h3]

/-- Clearing against a power of two tests exactly the corresponding bit. -/
lemma nat_land_pow_eq_zero (m j : Nat) :
    (m &&& 2 ^ j = 0) ↔ m.testBit j = false := by
  rw [nat_eq_zero_iff_testBit]
  constructor
  · intro h
    have := h j
    simpa [Nat.testBit_land, Nat.testBit_two_pow] using this
  · intro h i
    rw [Nat.testBit_land, Nat.testBit_two_pow]
    by_cases hij : j = i
    · subst hij
      simp [h]
    · simp [hij]

/-- Conjunction of bits 0, 1, 3 clear characterises `m &&& 11 = 0`. -/
lemma nat_land_eleven_eq_zero (m : Nat) :
    (m &&& 11 = 0) ↔
      (m.testBit 0 = false ∧ m.testBit 1 = false ∧ m.testBit 3 = false) := by
  rw [nat_eq_zero_iff_testBit]
  constructor
  · intro h
    refine ⟨?_, ?_, ?_⟩
    · have := h 0
      simpa [Nat.testBit_land, testBit_eleven] using this
    · have := h 1
      simpa [Nat.testBit_land, testBit_eleven] using this
    · have := h 3
      simpa [Nat.testBit_land, testBit_eleven] using this
  · rintro ⟨h0, h1, h3⟩ i
    rw [Nat.testBit_land, testBit_eleven]
    match i with
    | 0 => simp [h0]
    | 1 => simp [h1]
    | 2 => simp
    | 3 => simp [h3]
    | (n + 4) =>
      have e0 : (n + 4 ≠ 0) := by omega
      have e1 : (n + 4 ≠ 1) := by omega
      have e3 : (n + 4 ≠ 3) := by omega
      simp [e0, e1, e3]

/-- Difference against a power of two tests exactly the corresponding bit. -/
lemma nat_ldiff_pow_eq_zero (j m : Nat) :
    (Nat.ldiff (2 ^ j) m = 0) ↔ m.testBit j = true := by
  rw [nat_eq_zero_iff_testBit]
  constructor
  · intro h
    have := h j
    simpa [Nat.testBit_ldiff, Nat.testBit_two_pow] using this
  · intro h i
    rw [Nat.testBit_ldiff, Nat.testBit_two_pow]
    by_cases hij : j = i
    · subst hij
      simp [h]
    · simp [hij]

/-- Conjunction of bits 0, 1, 3 set characterises `Nat.ldiff 11 m = 0`. -/
lemma nat_ldiff_eleven_eq_zero (m : Nat) :
    (Nat.ldiff 11 m = 0) ↔
      (m.testBit 0 = true ∧ m.testBit 1 = true ∧ m.testBit 3 = true) := by
  rw [nat_eq_zero_iff_testBit]
  constructor
  · intro h
    refine ⟨?_, ?_, ?_⟩
    · have := h 0
      simp only [Nat.testBit_ldiff, testBit_eleven] at this
      simpa using this
    · have := h 1
      simp only [Nat.testBit_ldiff, testBit_eleven] at this
      simpa using this
    · have := h 3
      simp only [Nat.testBit_ldiff, testBit_eleven] at this
      simpa using this
  · rintro ⟨h0, h1, h3⟩ i
    rw [Nat.testBit_ldiff, testBit_eleven]
    match i with
    | 0 => simp [h0]
    | 1 => simp [h1]
    | 2 => simp
    | 3 => simp [h3]
    | (n + 4) =>
      have e0 : (n + 4 ≠ 0) := by omega
      have e1 : (n + 4 ≠ 1) := by omega
      have e3 : (n + 4 ≠ 3) := by omega
      simp [e0, e1, e3]

/-- Python's `t & 11` is nonzero exactly when one of `t & 1`, `t & 2`, `t & 8`
is, for every (possibly negative) integer `t`. -/
lemma int_land_eleven (t : Int) :
    (Int.land t 11 ≠ 0) ↔
      (Int.land t 1 ≠ 0 ∨ Int.land t 2 ≠ 0 ∨ Int.land t 8 ≠ 0) := by
  have hzero : ∀ n : Nat, (Int.ofNat n ≠ 0) ↔ ¬ (n = 0) := fun n =>
    Iff.intro (fun h hn => h (by rw [hn]; rfl))
      (fun h he => h (Int.ofNat.inj (he.trans (show (0 : Int) = Int.ofNat 0 from rfl))))
  rcases t with m | m
  · have b0 : (m &&& 1 = 0) ↔ m.testBit 0 = false := by
      simpa only [pow_zero] using nat_land_pow_eq_zero m 0
    have b1 : (m &&& 2 = 0) ↔ m.testBit 1 = false := by
      simpa only [pow_one] using nat_land_pow_eq_zero m 1
    have b3 : (m &&& 8 = 0) ↔ m.testBit 3 = false := by
      simpa only [show (2 : Nat) ^ 3 = 8 from by norm_num] using nat_land_pow_eq_zero m 3
    show (Int.ofNat (m &&& 11) ≠ 0) ↔
      (Int.ofNat (m &&& 1) ≠ 0 ∨ Int.ofNat (m &&& 2) ≠ 0 ∨ Int.ofNat (m &&& 8) ≠ 0)
    rw [hzero, hzero, hzero, hzero, b0, b1, b3, nat_land_eleven_eq_zero]
    tauto
  · have b0 : (Nat.ldiff 1 m = 0) ↔ m.testBit 0 = true := by
      simpa only [pow_zero] using nat_ldiff_pow_eq_zero 0 m
    have b1 : (Nat.ldiff 2 m = 0) ↔ m.testBit 1 = true := by
      simpa only [pow_one] using nat_ldiff_pow_eq_zero 1 m
    have b3 : (Nat.ldiff 8 m = 0) ↔ m.testBit 3 = true := by
      simpa only [show (2 : Nat) ^ 3 = 8 from by norm_num] using nat_ldiff_pow_eq_zero 3 m
    show (Int.ofNat (Nat.ldiff 11 m) ≠ 0) ↔
      (Int.ofNat (Nat.ldiff 1 m) ≠ 0 ∨ Int.ofNat (Nat.ldiff 2 m) ≠ 0 ∨
        Int.ofNat (Nat.ldiff 8 m) ≠ 0)
    rw [hzero, hzero, hzero, hzero, b0, b1, b3, nat_ldiff_eleven_eq_zero]
    tauto

/-- Per-object value of the combo `if/elif` chain: it adds one exactly when
the type's intersection with `{1, 2, 8}` is nonempty. -/
lemma combo_step_eq (c : Nat) (ob : HitObject) :
    (if Int.land ob.type 1 ≠ 0 then c + 1
     else if Int.land ob.type 2 ≠ 0 then c + 1
     else if Int.land ob.type 8 ≠ 0 then c + 1
     else c) =
    c + (if Int.land ob.type 11 ≠ 0 then 1 else 0) := by
  by_cases h1 : Int.land ob.type 1 ≠ 0
  · rw [if_pos h1, if_pos ((int_land_eleven ob.type).mpr (Or.inl h1))]
  · rw [if_neg h1]
    by_cases h2 : Int.land ob.type 2 ≠ 0
    · rw [if_pos h2, if_pos ((int_land_eleven ob.type).mpr (Or.inr (Or.inl h2)))]
    · rw [if_neg h2]
      by_cases h8 : Int.land ob.type 8 ≠ 0
      · rw [if_pos h8, if_pos ((int_land_eleven ob.type).mpr (Or.inr (Or.inr h8)))]
      · rw [if_neg h8, if_neg (fun h11 => by
          rcases (int_land_eleven ob.type).mp h11 with h | h | h
          · exact h1 h
          · exact h2 h
          · exact h8 h)]
        omega

/-- The combo fold counts the objects whose type intersects `{1, 2, 8}`. -/
lemma combo_foldl (l : List HitObject) : ∀ c : Nat,
    l.foldl
      (fun c ob =>
        if Int.land ob.type 1 ≠ 0 then c + 1
        else if Int.land ob.type 2 ≠ 0 then c + 1
        else if Int.land ob.type 8 ≠ 0 then c + 1
        else c) c =
    c + l.countP (fun ob => decide (Int.land ob.type 11 ≠ 0)) := by
  induction l with
  | nil => intro c; simp
  | cons ob obs ih =>
    intro c
    rw [List.foldl_cons, List.countP_cons, combo_step_eq, ih]
    by_cases h : Int.land ob.type 11 ≠ 0
    · simp [h]
      omega
    · simp [h]

/-- C3: for every chart with at least one hit object, `max_combo` is the
number of hit objects whose type bitmask meets `{bit 0, bit 1, bit 3}`
(`type & 11` nonzero), each contributing exactly 1; a type of `4` (only bit 2)
contributes nothing. -/
theorem c3_max_combo_counts_mask_eleven (d : OsuMapData)
    (h : d.hit_objects ≠ []) :
    (calculate_derived_info d).max_combo =
      d.hit_objects.countP (fun ob => decide (Int.land ob.type 11 ≠ 0)) := by
  match hh : d.hit_objects with
  | [] => exact absurd hh h
  | o :: os =>
    unfold calculate_derived_info
    rw [hh]
    simpa using combo_foldl (o :: os) 0

/-- C3 witness: a chart with a circle (type 1) and a pure type-4 object has
`max_combo = 1` — the type-4 object contributes 0. -/
theorem c3_max_combo_counts_mask_eleven_witness :
    ([hobj 100 1, hobj 200 4] : List HitObject) ≠ [] ∧
    (calculate_derived_info { hit_objects := [hobj 100 1, hobj 200 4] }).max_combo =
      ([hobj 100 1, hobj 200 4] : List HitObject).countP
        (fun ob => decide (Int.land ob.type 11 ≠ 0)) ∧
    ([hobj 100 1, hobj 200 4] : List HitObject).countP
        (fun ob => decide (Int.land ob.type 11 ≠ 0)) = 1 :=
  ⟨by decide,
   c3_max_combo_counts_mask_eleven { hit_objects := [hobj 100 1, hobj 200 4] }
     (by decide),
   by decide⟩

/-- A min-fold lands on its seed or on a list element. -/
lemma foldl_min_choice (l : List Int) : ∀ a : Int,
    l.foldl min a = a ∨ l.foldl min a ∈ l := by
  induction l with
  | nil => intro a; left; rfl
  | cons x xs ih =>
    intro a
    rw [List.foldl_cons]
    rcases ih (min a x) with h | h
    · rcases min_choice a x with hax | hax
      · left
        rw [h, hax]
      · right
        rw [h, hax]
        exact List.mem_cons_self x xs
    · right
      exact List.mem_cons_of_mem x h

/-- A min-fold is below its seed and below every list element. -/
lemma foldl_min_le (l : List Int) : ∀ a : Int,
    l.foldl min a ≤ a ∧ ∀ x ∈ l, l.foldl min a ≤ x := by
  induction l with
  | nil =>
    intro a
    exact ⟨le_refl a, fun x hx => absurd hx (List.not_mem_nil x)⟩
  | cons y ys ih =>
    intro a
    rw [List.foldl_cons]
    refine ⟨le_trans (ih (min a y)).1 (min_le_left a y), ?_⟩
    intro x hx
    rcases List.mem_cons.mp hx with rfl | hx
    · exact le_trans (ih (min a x)).1 (min_le_right a x)
    · exact (ih (min a y)).2 x hx

/-- A max-fold lands on its seed or on a list element. -/
lemma foldl_max_choice (l : List Int) : ∀ a : Int,
    l.foldl max a = a ∨ l.foldl max a ∈ l := by
  induction l with
  | nil => intro a; left; rfl
  | cons x xs ih =>
    intro a
    rw [List.foldl_cons]
    rcases ih (max a x) with h | h
    · rcases max_choice a x with hax | hax
      · left
        rw [h, hax]
      · right
        rw [h, hax]
        exact List.mem_cons_self x xs
    · right
      exact List.mem_cons_of_mem x h

/-- A max-fold is above its seed and above every list element. -/
lemma foldl_max_ge (l : List Int) : ∀ a : Int,
    a ≤ l.foldl max a ∧ ∀ x ∈ l, x ≤ l.foldl max a := by
  induction l with
  | nil =>
    intro a
    exact ⟨le_refl a, fun x hx => absurd hx (List.not_mem_nil x)⟩
  | cons y ys ih =>
    intro a
    rw [List.foldl_cons]
    refine ⟨le_trans (le_max_left a y) (ih (max a y)).1, ?_⟩
    intro x hx
    rcases List.mem_cons.mp hx with rfl | hx
    · exact le_trans (le_max_right a x) (ih (max a x)).1
    · exact (ih (max a y)).2 x hx

/-- C4: for every chart with at least one hit object, `hit_length` is the
maximum hit-object offset minus the minimum one, and `total_length` is
`max(last_offset + 2000, preview_time + 30000)` when `preview_time > 0` and
`last_offset + 2000` otherwise; in particular a single object at offset `t`
with no preview time gives `hit_length = 0` and `total_length = t + 2000`. -/
theorem c4_hit_and_total_length :
    (∀ d : OsuMapData, d.hit_objects ≠ [] →
      ∃ M m : Int,
        M ∈ d.hit_objects.map HitObject.time ∧
        m ∈ d.hit_objects.map HitObject.time ∧
        (∀ x ∈ d.hit_objects.map HitObject.time, x ≤ M) ∧
        (∀ x ∈ d.hit_objects.map HitObject.time, m ≤ x) ∧
        (calculate_derived_info d).hit_length = M - m ∧
        (calculate_derived_info d).total_length =
          (if 0 < d.preview_time then max (M + 2000) (d.preview_time + 30000)
           else M + 2000)) ∧
    (∀ (d : OsuMapData) (o : HitObject), d.hit_objects = [o] →
      ¬ (0 < d.preview_time) →
      (calculate_derived_info d).hit_length = 0 ∧
      (calculate_derived_info d).total_length = o.time + 2000) := by
  constructor
  · intro d h
    match hh : d.hit_objects with
    | [] => exact absurd hh h
    | o :: os =>
      refine ⟨(os.map HitObject.time).foldl max o.time,
              (os.map HitObject.time).foldl min o.time, ?_, ?_, ?_, ?_, ?_, ?_⟩
      · rcases foldl_max_choice (os.map HitObject.time) o.time with he | he
        · rw [he, List.map_cons]
          exact List.mem_cons_self _ _
        · rw [List.map_cons]
          exact List.mem_cons_of_mem _ he
      · rcases foldl_min_choice (os.map HitObject.time) o.time with he | he
        · rw [he, List.map_cons]
          exact List.mem_cons_self _ _
        · rw [List.map_cons]
          exact List.mem_cons_of_mem _ he
      · intro x hx
        rw [List.map_cons] at hx
        rcases List.mem_cons.mp hx with rfl | hx
        · exact (foldl_max_ge (os.map HitObject.time) o.time).1
        · exact (foldl_max_ge (os.map HitObject.time) o.time).2 x hx
      · intro x hx
        rw [List.map_cons] at hx
        rcases List.mem_cons.mp hx with rfl | hx
        · exact (foldl_min_le (os.map HitObject.time) o.time).1
        · exact (foldl_min_le (os.map HitObject.time) o.time).2 x hx
      · unfold calculate_derived_info
        rw [hh]
      · unfold calculate_derived_info
        rw [hh]
  · intro d o hh hp
    unfold calculate_derived_info
    rw [hh]
    constructor
    · simp
    · simp [hp]

/-- C4 witness: a chart whose only hit object sits at offset 5000 and whose
preview time is unset (default -1) has `hit_length = 0` and
`total_length = 5000 + 2000`. -/
theorem c4_hit_and_total_length_witness :
    ({ hit_objects := [hobj 5000 1] } : OsuMapData).hit_objects = [hobj 5000 1] ∧
    ¬ (0 < ({ hit_objects := [hobj 5000 1] } : OsuMapData).preview_time) ∧
    (calculate_derived_info { hit_objects := [hobj 5000 1] }).hit_length = 0 ∧
    (calculate_derived_info { hit_objects := [hobj 5000 1] }).total_length =
      (hobj 5000 1).time + 2000 :=
  ⟨rfl, by decide,
   (c4_hit_and_total_length.2 { hit_objects := [hobj 5000 1] } (hobj 5000 1)
     rfl (by decide)).1,
   (c4_hit_and_total_length.2 { hit_objects := [hobj 5000 1] } (hobj 5000 1)
     rfl (by decide)).2⟩

/-- The `[General]` handler never writes `bpm`. -/
lemma parse_general_bpm (d : OsuMapData) (l : List Char) :
    (parse_general d l).bpm = d.bpm := by
  simp only [parse_general]
  by_cases h0 : (parse_key_value l).1 = []
  · rw [if_pos h0]
  · rw [if_neg h0]
    by_cases h1 : (parse_key_value l).1 = ['A', 'u', 'd', 'i', 'o', 'F', 'i', 'l', 'e', 'n', 'a', 'm', 'e']
    · rw [if_pos h1]
    · rw [if_neg h1]
      by_cases h2 : (parse_key_value l).1 = ['A', 'u', 'd', 'i', 'o', 'L', 'e', 'a', 'd', 'I', 'n']
      · rw [if_pos h2]
        rcases pyInt? (parse_key_value l).2 with _ | n
        · rfl
        · rfl
      · rw [if_neg h2]
        by_cases h3 : (parse_key_value l).1 = ['A', 'u', 'd', 'i', 'o', 'H', 'a', 's', 'h']
        · rw [if_pos h3]
        · rw [if_neg h3]
          by_cases h4 : (parse_key_value l).1 = ['P', 'r', 'e', 'v', 'i', 'e', 'w', 'T', 'i', 'm', 'e']
          · rw [if_pos h4]
            rcases pyInt? (parse_key_value l).2 with _ | n
            · rfl
            · rfl
          · rw [if_neg h4]
            by_cases h5 : (parse_key_value l).1 = ['C', 'o', 'u', 'n', 't', 'd', 'o', 'w', 'n']
            · rw [if_pos h5]
              rcases pyInt? (parse_key_value l).2 with _ | n
              · rfl
              · rfl
            · rw [if_neg h5]
              by_cases h6 : (parse_key_value l).1 = ['S', 'a', 'm', 'p', 'l', 'e', 'S', 'e', 't']
              · rw [if_pos h6]
              · rw [if_neg h6]
                by_cases h7 : (parse_key_value l).1 = ['S', 't', 'a', 'c', 'k', 'L', 'e', 'n', 'i', 'e', 'n', 'c', 'y']
                · rw [if_pos h7]
                  rcases pyFloat? (parse_key_value l).2 with _ | q
                  · rfl
                  · rfl
                · rw [if_neg h7]
                  by_cases h8 : (parse_key_value l).1 = ['M', 'o', 'd', 'e']
                  · rw [if_pos h8]
                    rcases pyInt? (parse_key_value l).2 with _ | n
                    · rfl
                    · rfl
                  · rw [if_neg h8]
                    by_cases h9 : (parse_key_value l).1 = ['L', 'e', 't', 't', 'e', 'r', 'b', 'o', 'x', 'I', 'n', 'B', 'r', 'e', 'a', 'k', 's']
                    · rw [if_pos h9]
                    · rw [if_neg h9]
                      by_cases h10 : (parse_key_value l).1 = ['S', 't', 'o', 'r', 'y', 'F', 'i', 'r', 'e', 'I', 'n', 'F', 'r', 'o', 'n', 't']
                      · rw [if_pos h10]
                      · rw [if_neg h10]
                        by_cases h11 : (parse_key_value l).1 = ['U', 's', 'e', 'S', 'k', 'i', 'n', 'S', 'p', 'r', 'i', 't', 'e', 's']
                        · rw [if_pos h11]
                        · rw [if_neg h11]
                          by_cases h12 : (parse_key_value l).1 = ['A', 'l', 'w', 'a', 'y', 's', 'S', 'h', 'o', 'w', 'P', 'l', 'a', 'y', 'f', 'i', 'e', 'l', 'd']
                          · rw [if_pos h12]
                          · rw [if_neg h12]
                            by_cases h13 : (parse_key_value l).1 = ['O', 'v', 'e', 'r', 'l', 'a', 'y', 'P', 'o', 's', 'i', 't', 'i', 'o', 'n']
                            · rw [if_pos h13]
                            · rw [if_neg h13]
                              by_cases h14 : (parse_key_value l).1 = ['S', 'k', 'i', 'n', 'P', 'r', 'e', 'f', 'e', 'r', 'e', 'n', 'c', 'e']
                              · rw [if_pos h14]
                              · rw [if_neg h14]
                                by_cases h15 : (parse_key_value l).1 = ['E', 'p', 'i', 'l', 'e', 'p', 's', 'y', 'W', 'a', 'r', 'n', 'i', 'n', 'g']
                                · rw [if_pos h15]
                                · rw [if_neg h15]
                                  by_cases h16 : (parse_key_value l).1 = ['C', 'o', 'u', 'n', 't', 'd', 'o', 'w', 'n', 'O', 'f', 'f', 's', 'e', 't']
                                  · rw [if_pos h16]
                                    rcases pyInt? (parse_key_value l).2 with _ | n
                                    · rfl
                                    · rfl
                                  · rw [if_neg h16]
                                    by_cases h17 : (parse_key_value l).1 = ['S', 'p', 'e', 'c', 'i', 'a', 'l', 'S', 't', 'y', 'l', 'e']
                                    · rw [if_pos h17]
                                    · rw [if_neg h17]
                                      by_cases h18 : (parse_key_value l).1 = ['W', 'i', 'd', 'e', 's', 'c', 'r', 'e', 'e', 'n', 'S', 't', 'o', 'r', 'y', 'b', 'o', 'a', 'r', 'd']
                                      · rw [if_pos h18]
                                      · rw [if_neg h18]
                                        by_cases h19 : (parse_key_value l).1 = ['S', 'a', 'm', 'p', 'l', 'e', 's', 'M', 'a', 't', 'c', 'h', 'P', 'l', 'a', 'y', 'b', 'a', 'c', 'k', 'R', 'a', 't', 'e']
                                        · rw [if_pos h19]
                                        · rw [if_neg h19]

/-- The `[Editor]` handler never writes `bpm`. -/
lemma parse_editor_bpm (d : OsuMapData) (l : List Char) :
    (parse_editor d l).bpm = d.bpm := by
  simp only [parse_editor]
  by_cases h0 : (parse_key_value l).1 = []
  · rw [if_pos h0]
  · rw [if_neg h0]
    by_cases h1 : (parse_key_value l).1 = ['B', 'o', 'o', 'k', 'm', 'a', 'r', 'k', 's']
    · rw [if_pos h1]
      repeat' split
      all_goals rfl
    · rw [if_neg h1]
      by_cases h2 : (parse_key_value l).1 = ['D', 'i', 's', 't', 'a', 'n', 'c', 'e', 'S', 'p', 'a', 'c', 'i', 'n', 'g']
      · rw [if_pos h2]
        rcases pyFloat? (parse_key_value l).2 with _ | q
        · rfl
        · rfl
      · rw [if_neg h2]
        by_cases h3 : (parse_key_value l).1 = ['B', 'e', 'a', 't', 'D', 'i', 'v', 'i', 's', 'o', 'r']
        · rw [if_pos h3]
          rcases pyInt? (parse_key_value l).2 with _ | n
          · rfl
          · rfl
        · rw [if_neg h3]
          by_cases h4 : (parse_key_value l).1 = ['G', 'r', 'i', 'd', 'S', 'i', 'z', 'e']
          · rw [if_pos h4]
            rcases pyInt? (parse_key_value l).2 with _ | n
            · rfl
            · rfl
          · rw [if_neg h4]
            by_cases h5 : (parse_key_value l).1 = ['T', 'i', 'm', 'e', 'l', 'i', 'n', 'e', 'Z', 'o', 'o', 'm']
            · rw [if_pos h5]
              rcases pyFloat? (parse_key_value l).2 with _ | q
              · rfl
              · rfl
            · rw [if_neg h5]

/-- The `[Metadata]` handler never writes `bpm`. -/
lemma parse_metadata_bpm (d : OsuMapData) (l : List Char) :
    (parse_metadata d l).bpm = d.bpm := by
  simp only [parse_metadata]
  by_cases h0 : (parse_key_value l).1 = []
  · rw [if_pos h0]
  · rw [if_neg h0]
    by_cases h1 : (parse_key_value l).1 = ['T', 'i', 't', 'l', 'e']
    · rw [if_pos h1]
    · rw [if_neg h1]
      by_cases h2 : (parse_key_value l).1 = ['T', 'i', 't', 'l', 'e', 'U', 'n', 'i', 'c', 'o', 'd', 'e']
      · rw [if_pos h2]
      · rw [if_neg h2]
        by_cases h3 : (parse_key_value l).1 = ['A', 'r', 't', 'i', 's', 't']
        · rw [if_pos h3]
        · rw [if_neg h3]
          by_cases h4 : (parse_key_value l).1 = ['A', 'r', 't', 'i', 's', 't', 'U', 'n', 'i', 'c', 'o', 'd', 'e']
          · rw [if_pos h4]
          · rw [if_neg h4]
            by_cases h5 : (parse_key_value l).1 = ['C', 'r', 'e', 'a', 't', 'o', 'r']
            · rw [if_pos h5]
            · rw [if_neg h5]
              by_cases h6 : (parse_key_value l).1 = ['V', 'e', 'r', 's', 'i', 'o', 'n']
              · rw [if_pos h6]
              · rw [if_neg h6]
                by_cases h7 : (parse_key_value l).1 = ['S', 'o', 'u', 'r', 'c', 'e']
                · rw [if_pos h7]
                · rw [if_neg h7]
                  by_cases h8 : (parse_key_value l).1 = ['T', 'a', 'g', 's']
                  · rw [if_pos h8]
                  · rw [if_neg h8]
                    by_cases h9 : (parse_key_value l).1 = ['B', 'e', 'a', 't', 'm', 'a', 'p', 'I', 'D']
                    · rw [if_pos h9]
                      rcases pyInt? (parse_key_value l).2 with _ | n
                      · rfl
                      · rfl
                    · rw [if_neg h9]
                      by_cases h10 : (parse_key_value l).1 = ['B', 'e', 'a', 't', 'm', 'a', 'p', 'S', 'e', 't', 'I', 'D']
                      · rw [if_pos h10]
                        rcases pyInt? (parse_key_value l).2 with _ | n
                        · rfl
                        · rfl
                      · rw [if_neg h10]

/-- The `[Difficulty]` handler never writes `bpm`. -/
lemma parse_difficulty_bpm (d : OsuMapData) (l : List Char) :
    (parse_difficulty d l).bpm = d.bpm := by
  simp only [parse_difficulty]
  by_cases h0 : (parse_key_value l).1 = []
  · rw [if_pos h0]
  · rw [if_neg h0]
    by_cases h1 : (parse_key_value l).1 = ['H', 'P', 'D', 'r', 'a', 'i', 'n', 'R', 'a', 't', 'e']
    · rw [if_pos h1]
      rcases pyFloat? (parse_key_value l).2 with _ | q
      · rfl
      · rfl
    · rw [if_neg h1]
      by_cases h2 : (parse_key_value l).1 = ['C', 'i', 'r', 'c', 'l', 'e', 'S', 'i', 'z', 'e']
      · rw [if_pos h2]
        rcases pyFloat? (parse_key_value l).2 with _ | q
        · rfl
        · rfl
      · rw [if_neg h2]
        by_cases h3 : (parse_key_value l).1 = ['O', 'v', 'e', 'r', 'a', 'l', 'l', 'D', 'i', 'f', 'f', 'i', 'c', 'u', 'l', 't', 'y']
        · rw [if_pos h3]
          rcases pyFloat? (parse_key_value l).2 with _ | q
          · rfl
          · rfl
        · rw [if_neg h3]
          by_cases h4 : (parse_key_value l).1 = ['A', 'p', 'p', 'r', 'o', 'a', 'c', 'h', 'R', 'a', 't', 'e']
          · rw [if_pos h4]
            rcases pyFloat? (parse_key_value l).2 with _ | q
            · rfl
            · rfl
          · rw [if_neg h4]
            by_cases h5 : (parse_key_value l).1 = ['S', 'l', 'i', 'd', 'e', 'r', 'M', 'u', 'l', 't', 'i', 'p', 'l', 'i', 'e', 'r']
            · rw [if_pos h5]
              rcases pyFloat? (parse_key_value l).2 with _ | q
              · rfl
              · rfl
            · rw [if_neg h5]
              by_cases h6 : (parse_key_value l).1 = ['S', 'l', 'i', 'd', 'e', 'r', 'T', 'i', 'c', 'k', 'R', 'a', 't', 'e']
              · rw [if_pos h6]
                rcases pyFloat? (parse_key_value l).2 with _ | q
                · rfl
                · rfl
              · rw [if_neg h6]

/-- The `[Events]` handler never writes `bpm`. -/
lemma parse_events_bpm (d : OsuMapData) (l : List Char) :
    (parse_events d l).bpm = d.bpm := by
  simp only [parse_events]
  repeat' split
  all_goals rfl

/-- The `[TimingPoints]` handler never writes `bpm`. -/
lemma parse_timing_points_bpm (d : OsuMapData) (l : List Char) :
    (parse_timing_points d l).bpm = d.bpm := by
  simp only [parse_timing_points]
  repeat' split
  all_goals rfl

/-- The `[Colours]` handler never writes `bpm`. -/
lemma parse_colours_bpm (d : OsuMapData) (l : List Char) :
    (parse_colours d l).bpm = d.bpm := by
  simp only [parse_colours]
  repeat' split
  all_goals rfl

/-- The `[HitObjects]` handler never writes `bpm`. -/
lemma parse_hit_objects_bpm (d : OsuMapData) (l : List Char) :
    (parse_hit_objects d l).bpm = d.bpm := by
  simp only [parse_hit_objects]
  repeat' split
  all_goals rfl

/-- No line-level step of the parser writes `bpm`. -/
lemma parse_line_bpm (st : ParserState) (l : List Char) :
    (parse_line st l).data.bpm = st.data.bpm := by
  unfold parse_line
  by_cases h0 : l = [] ∨ pyStartsWith l "//".data = true
  · rw [if_pos h0]
  · rw [if_neg h0]
    by_cases h1 : pyStartsWith l "osu file format v".data = true
    · rw [if_pos h1]
      dsimp only
      rcases pyInt? ((pysplit 'v' l).getD 1 []) with _ | n
      · rfl
      · rfl
    · rw [if_neg h1]
      by_cases h2 : pyStartsWith l "[".data = true ∧ pyEndsWith l "]".data = true
      · rw [if_pos h2]
      · rw [if_neg h2]
        by_cases h3 : st.current_section = "General"
        · rw [if_pos h3]
          exact parse_general_bpm st.data l
        · rw [if_neg h3]
          by_cases h4 : st.current_section = "Editor"
          · rw [if_pos h4]
            exact parse_editor_bpm st.data l
          · rw [if_neg h4]
            by_cases h5 : st.current_section = "Metadata"
            · rw [if_pos h5]
              exact parse_metadata_bpm st.data l
            · rw [if_neg h5]
              by_cases h6 : st.current_section = "Difficulty"
              · rw [if_pos h6]
                exact parse_difficulty_bpm st.data l
              · rw [if_neg h6]
                by_cases h7 : st.current_section = "Events"
                · rw [if_pos h7]
                  exact parse_events_bpm st.data l
                · rw [if_neg h7]
                  by_cases h8 : st.current_section = "TimingPoints"
                  · rw [if_pos h8]
                    exact parse_timing_points_bpm st.data l
                  · rw [if_neg h8]
                    by_cases h9 : st.current_section = "Colours"
                    · rw [if_pos h9]
                      exact parse_colours_bpm st.data l
                    · rw [if_neg h9]
                      by_cases h10 : st.current_section = "HitObjects"
                      · rw [if_pos h10]
                        exact parse_hit_objects_bpm st.data l
                      · rw [if_neg h10]

/-- The whole line fold leaves `bpm` at its initial value. -/
lemma parse_fold_bpm (lines : List (List Char)) : ∀ st : ParserState,
    ((lines.foldl (fun s l => parse_line s (pytrim l)) st).data.bpm) = st.data.bpm := by
  induction lines with
  | nil => intro st; rfl
  | cons l ls ih =>
    intro st
    rw [List.foldl_cons, ih, parse_line_bpm]

/-- Derived-field computation does not change the timing point list. -/
lemma calc_timing_points (d : OsuMapData) :
    (calculate_derived_info d).timing_points = d.timing_points := by
  unfold calculate_derived_info
  repeat' split
  all_goals rfl

/-- Derived-field computation does not change the hit object list. -/
lemma calc_hit_objects (d : OsuMapData) :
    (calculate_derived_info d).hit_objects = d.hit_objects := by
  unfold calculate_derived_info
  repeat' split
  all_goals rfl

/-- With at least one hit object, the computed `bpm` is determined by the
first uninherited positive-beat-length timing point, falling back to the
record's previous `bpm`. -/
lemma calc_bpm (d : OsuMapData) (h : d.hit_objects ≠ []) :
    (calculate_derived_info d).bpm =
      (match d.timing_points.find? bpmSource with
       | some tp => 60000 / tp.beat_length
       | none => d.bpm) := by
  match hh : d.hit_objects with
  | [] => exact absurd hh h
  | o :: os =>
    unfold calculate_derived_info
    rw [hh]

/-- BPM case split for a record whose `bpm` field is still at its initial
zero, as holds for every record the line fold produces. -/
lemma parsed_bpm_cases (d₀ : OsuMapData) (hbpm : d₀.bpm = 0)
    (h : d₀.hit_objects ≠ []) :
    (∀ tp, (calculate_derived_info d₀).timing_points.find? bpmSource = some tp →
        (calculate_derived_info d₀).bpm = 60000 / tp.beat_length) ∧
    ((calculate_derived_info d₀).timing_points.find? bpmSource = none →
        (calculate_derived_info d₀).bpm = 0) := by
  rw [calc_timing_points, calc_bpm d₀ h]
  constructor
  · intro tp htp
    rw [htp]
  · intro hnone
    rw [hnone]
    exact hbpm

/-- C6 (amended): for every parsed chart with at least one hit object, `bpm`
is `60000 / beat_length` of the first timing point with `uninherited = true`
and `beat_length > 0`, and stays `0` when no such timing point exists. (For a
chart with no hit objects the derived-field pass is skipped entirely, so
`bpm` stays `0` even when such a timing point exists — see the accompanying
counterexample to the claim as stated.) -/
theorem c6_bpm_first_uninherited (content : String)
    (h : (parse_osu_content content).hit_objects ≠ []) :
    (∀ tp, (parse_osu_content content).timing_points.find? bpmSource = some tp →
        (parse_osu_content content).bpm = 60000 / tp.beat_length) ∧
    ((parse_osu_content content).timing_points.find? bpmSource = none →
        (parse_osu_content content).bpm = 0) := by
  have hrepr : parse_osu_content content =
      calculate_derived_info ((pysplit '\n' content.data).foldl
        (fun s l => parse_line s (pytrim l)) ({} : ParserState)).data := rfl
  have hbpm : ((pysplit '\n' content.data).foldl
      (fun s l => parse_line s (pytrim l)) ({} : ParserState)).data.bpm = 0 :=
    (parse_fold_bpm (pysplit '\n' content.data) {}).trans rfl
  rw [hrepr] at h ⊢
  rw [calc_hit_objects] at h
  exact parsed_bpm_cases _ hbpm h

/-- Helper arithmetic fact for the BPM example: `60000 / 500 = 120`. -/
lemma sixty_thousand_div_five_hundred : (60000 : ℚ) / 500 = 120 := by
  norm_num

/-- C6 witness: a chart with the `0,500` timing point and one hit object
parses with `bpm = 60000 / 500 = 120`. -/
theorem c6_bpm_first_uninherited_witness :
    (parse_osu_content "[TimingPoints]\n0,500\n[HitObjects]\n0,0,100,1,0").hit_objects ≠ [] ∧
    (parse_osu_content "[TimingPoints]\n0,500\n[HitObjects]\n0,0,100,1,0").timing_points.find?
        bpmSource = some tpFiveHundred ∧
    (parse_osu_content "[TimingPoints]\n0,500\n[HitObjects]\n0,0,100,1,0").bpm =
      60000 / tpFiveHundred.beat_length ∧
    (60000 : ℚ) / tpFiveHundred.beat_length = 120 :=
  ⟨by decide, by decide,
   (c6_bpm_first_uninherited "[TimingPoints]\n0,500\n[HitObjects]\n0,0,100,1,0"
       (by decide)).1 tpFiveHundred (by decide),
   sixty_thousand_div_five_hundred⟩

/-- C6 counterexample to the claim as stated (over *every* parsed chart): the
chart text `[TimingPoints]\n0,500` parses with a first uninherited
positive-beat-length timing point of beat length 500, yet its `bpm` is `0`,
not `60000 / 500 = 120`, because the chart has no hit objects and the
derived-field pass is skipped. -/
theorem c6_bpm_counterexample :
    (parse_osu_content "[TimingPoints]\n0,500").timing_points.find? bpmSource =
        some tpFiveHundred ∧
    tpFiveHundred.uninherited = true ∧ (0 : ℚ) < tpFiveHundred.beat_length ∧
    (parse_osu_content "[TimingPoints]\n0,500").bpm = 0 ∧
    (0 : ℚ) ≠ 60000 / tpFiveHundred.beat_length := by
  refine ⟨by decide, by decide, by decide, by decide, ?_⟩
  rw [show tpFiveHundred.beat_length = 500 from rfl,
    sixty_thousand_div_five_hundred]
  norm_num

/-- C5 (amended): the processor fails with `invalidArchive` exactly when the
bytes do not open as a zip container; when the container opens but extraction
raises anything other than `BadZipFile` (encrypted member, unsupported
compression), that exception escapes uncaught — the source catches only
`BadZipFile`; it fails with `noValidCharts` when extraction succeeds but the
file walk produces zero charts; and in every remaining case it returns a
mapset with its diagnostics — unreadable members, chart handling and all
validation concerns surface only as diagnostic strings or `validate_osz`
problems, never as exceptions. On every error path no partial mapset is
returned. -/
theorem c5_error_taxonomy (md5 dec : List Nat → String)
    (unzip : List Nat → ZipOpenResult)
    (osz_data : List Nat) (original_filename : String) :
    match unzip osz_data with
    | ZipOpenResult.badZipFile =>
        process_osz_bytes md5 dec unzip osz_data original_filename =
          Except.error OszError.invalidArchive
    | ZipOpenResult.extractFailure msg =>
        process_osz_bytes md5 dec unzip osz_data original_filename =
          Except.error (OszError.uncaught msg)
    | ZipOpenResult.extracted files =>
        if (collect_files md5 dec files).1.beatmaps = [] then
          process_osz_bytes md5 dec unzip osz_data original_filename =
            Except.error OszError.noValidCharts
        else ∃ m ds,
          process_osz_bytes md5 dec unzip osz_data original_filename =
            Except.ok (m, ds) := by
  match hu : unzip osz_data with
  | ZipOpenResult.badZipFile =>
    dsimp only
    unfold process_osz_bytes
    rw [hu]
  | ZipOpenResult.extractFailure msg =>
    dsimp only
    unfold process_osz_bytes
    rw [hu]
  | ZipOpenResult.extracted files =>
    dsimp only
    unfold process_osz_bytes parse_extracted_files
    rw [hu]
    dsimp only
    by_cases hb : (collect_files md5 dec files).1.beatmaps = []
    · rw [if_pos hb, if_pos hb]
    · rw [if_neg hb, if_neg hb]
      exact ⟨_, _, rfl⟩

/-- C5 counterexample to the claim as stated: a well-formed zip container
whose extraction raises (here: an encrypted member) makes `process_osz_bytes`
raise that exception to the caller — the bytes *do* open as a zip (the
outcome is not `badZipFile`), yet the call neither returns a mapset nor fails
with `invalidArchive` or `noValidCharts`, refuting "raises no exception in
any other case". -/
theorem c5_uncaught_extraction_counterexample :
    encUnzip [] ≠ ZipOpenResult.badZipFile ∧
    process_osz_bytes exMd5 exDec encUnzip [] "a.osz" =
      Except.error (OszError.uncaught
        "File a.osu is encrypted, password required for extraction") ∧
    OszError.uncaught "File a.osu is encrypted, password required for extraction" ≠
      OszError.invalidArchive ∧
    OszError.uncaught "File a.osu is encrypted, password required for extraction" ≠
      OszError.noValidCharts := by
  refine ⟨by decide, rfl, by decide, by decide⟩

/-- Processing one file appends exactly one chart (carrying the normalised
path) when the member is a readable chart, and no chart otherwise. -/
lemma process_file_beatmaps_filenames (md5 dec : List Nat → String)
    (e : ExtractedFile) (m : OszMapset) :
    (process_file md5 dec e m).1.beatmaps.map OsuMapData.filename =
      m.beatmaps.map OsuMapData.filename ++
        (if isChartEntry e then [normalizeSep e.path] else []) := by
  unfold process_file isChartEntry
  rcases he : e.bytes? with _ | bytes
  · simp [he]
  · dsimp only
    by_cases ht : get_file_type e.path = "osu"
    · rw [if_pos ht]
      simp [he, ht]
    · rw [if_neg ht]
      simp [he, ht]

/-- Processing one file appends exactly one member record (carrying the
normalised path) when the member is readable, and none otherwise. -/
lemma process_file_files_filenames (md5 dec : List Nat → String)
    (e : ExtractedFile) (m : OszMapset) :
    (process_file md5 dec e m).1.files.map OszFileInfo.filename =
      m.files.map OszFileInfo.filename ++
        (if isReadable e then [normalizeSep e.path] else []) := by
  unfold process_file isReadable
  rcases he : e.bytes? with _ | bytes
  · simp [he]
  · dsimp only
    by_cases ht : get_file_type e.path = "osu"
    · rw [if_pos ht]
      simp [he]
    · rw [if_neg ht]
      simp [he]

/-- Generalised file-walk lemma: the fold visits the given traversal list in
order and emits charts and member records in that same order. -/
lemma collect_fold_filenames (md5 dec : List Nat → String) :
    ∀ (fs : List ExtractedFile) (m : OszMapset) (ds : List String),
      ((fs.foldl
          (fun acc e =>
            let r := process_file md5 dec e acc.1
            (r.1, acc.2 ++ r.2)) (m, ds)).1.beatmaps.map OsuMapData.filename =
        m.beatmaps.map OsuMapData.filename ++
          (fs.filter isChartEntry).map (fun e => normalizeSep e.path)) ∧
      ((fs.foldl
          (fun acc e =>
            let r := process_file md5 dec e acc.1
            (r.1, acc.2 ++ r.2)) (m, ds)).1.files.map OszFileInfo.filename =
        m.files.map OszFileInfo.filename ++
          (fs.filter isReadable).map (fun e => normalizeSep e.path)) := by
  intro fs
  induction fs with
  | nil => intro m ds; simp
  | cons e fs ih =>
    intro m ds
    rw [List.foldl_cons]
    dsimp only
    constructor
    · rw [(ih _ _).1, process_file_beatmaps_filenames, List.filter_cons]
      by_cases hc : isChartEntry e
      · simp [hc]
      · simp [hc]
    · rw [(ih _ _).2, process_file_files_filenames, List.filter_cons]
      by_cases hr : isReadable e
      · simp [hr]
      · simp [hr]

/-- C2 (amended): the file walk visits the extracted files in the order the
directory traversal yields them — not necessarily the order of the members
inside the zip container — and the resulting charts and member records appear
in exactly that traversal order, with their paths' separators normalised to
forward slashes. -/
theorem c2_traversal_order (md5 dec : List Nat → String)
    (files : List ExtractedFile) :
    ((collect_files md5 dec files).1.beatmaps.map OsuMapData.filename =
      (files.filter isChartEntry).map (fun e => normalizeSep e.path)) ∧
    ((collect_files md5 dec files).1.files.map OszFileInfo.filename =
      (files.filter isReadable).map (fun e => normalizeSep e.path)) := by
  have h := collect_fold_filenames md5 dec files {} []
  simpa using h

/-- C2 counterexample to the claim as stated: chart order need not follow
archive member order. With members `[a.osu, b.osu]`, the directory walk may
yield `[b.osu, a.osu]` (a permutation of the members — `rglob` order is
filesystem-dependent), and then the charts come out in walk order
`[b.osu, a.osu]`, not member order `[a.osu, b.osu]`. -/
theorem c2_member_order_counterexample :
    ¬ (∀ (members traversal : List ExtractedFile), traversal.Perm members →
        (collect_files exMd5 exDec traversal).1.beatmaps.map OsuMapData.filename =
          (members.filter isChartEntry).map (fun e => normalizeSep e.path)) := by
  intro h
  have hp : ([⟨"b.osu", some []⟩, ⟨"a.osu", some []⟩] : List ExtractedFile).Perm
      [⟨"a.osu", some []⟩, ⟨"b.osu", some []⟩] := by decide
  have := h [⟨"a.osu", some []⟩, ⟨"b.osu", some []⟩]
    [⟨"b.osu", some []⟩, ⟨"a.osu", some []⟩] hp
  exact absurd this (by decide)

/-- Appending conditionally to an accumulator is appending a conditional
singleton list. -/
lemma cond_append {α : Type} (c : Prop) [Decidable c] (xs ys : List α) :
    (if c then xs ++ ys else xs) = xs ++ (if c then ys else []) := by
  split <;> simp

/-- One step of the validation loop appends exactly the chart's own problem
list and records its `(mode, version)` pair. -/
lemma validateChartStep_eq (files : List OszFileInfo)
    (errs : List String) (seen : List (Int × String)) (b : OsuMapData) :
    validateChartStep files (errs, seen) b =
      (errs ++ perChartProblems files seen b, seen ++ [(b.mode, b.version)]) := by
  unfold validateChartStep perChartProblems
  by_cases h1 : (b.mode, b.version) ∈ seen <;>
    by_cases h2 : trimStr b.version = "" <;>
      by_cases h3 : trimStr b.creator = "" <;>
        by_cases h4 : b.hit_objects = [] <;>
          by_cases h5 : b.audio_filename ≠ "" ∧ audioFound files b = false <;>
            simp [h1, h2, h3, h4, h5]

/-- The validation loop accumulates every chart's problems in order. -/
lemma validate_fold (files : List OszFileInfo) :
    ∀ (bs : List OsuMapData) (errs : List String) (seen : List (Int × String)),
      (bs.foldl (validateChartStep files) (errs, seen)).1 =
        errs ++ chartProblems files seen bs := by
  intro bs
  induction bs with
  | nil => intro errs seen; simp [chartProblems]
  | cons b bs ih =>
    intro errs seen
    rw [List.foldl_cons, validateChartStep_eq, ih, chartProblems,
      List.append_assoc]

/-- C9: `validate_osz` is a pure total function returning the list of problem
strings; it leaves the mapset untouched (it is a function of the mapset
only), and it accumulates the basic problems plus — unless the chart list is
empty, the single short-circuit — every per-chart problem and the
audio-presence problem. -/
theorem c9_validate_accumulates (m : OszMapset) :
    validate_osz m = validateSpec m := by
  unfold validate_osz validateSpec baseProblems audioProblems
  by_cases h1 : trimStr m.title = "" <;>
    by_cases h2 : trimStr m.artist = "" <;>
      by_cases h3 : trimStr m.creator = "" <;>
        by_cases hb : m.beatmaps = [] <;>
          by_cases ha : m.files.filter (fun f => f.file_type == "audio") = [] <;>
            simp [h1, h2, h3, hb, ha, validate_fold]
